import Mathlib

/-!
Shallow embedding of the stock-ledger, metadata-resolver, catalog-sync and
returns-scheduler logic of `src/bookstore_app.py`, together with theorems
settling the specification claims about it.  Each definition names the
function (and lines) of the source it embeds.
-/

set_option maxRecDepth 4000

/-- Calendar date, as stored in the books and sales tables
(`purchase_date DATE`, `sale_date DATE`).  Fields are integers; a value is a
valid date when the month is in 1..12 and the day in 1..daysInMonth. -/
structure Date where
  year : Int
  month : Int
  day : Int
  deriving Repr, DecidableEq

/-- Leap-year test of the proleptic Gregorian calendar (as used by SQLite and
pandas date arithmetic). -/
def isLeap (y : Int) : Bool :=
  y % 4 == 0 && (y % 100 != 0 || y % 400 == 0)

/-- Number of days in a month of a given year. -/
def daysInMonth (y m : Int) : Int :=
  if m == 2 then (if isLeap y then 29 else 28)
  else if m == 4 || m == 6 || m == 9 || m == 11 then 30
  else 31

/-- Models the SQLite modifier used at src/bookstore_app.py line 754,
`date(b.purchase_date, '+' || d.return_window_months || ' months')`:
the month count is added to the month field, year and month are
renormalized, and a day that exceeds the length of the resulting month is
carried into the following month (for valid input dates, whose day is at
most 31, a single carry step is what SQLite performs). -/
def addMonths (d : Date) (n : Int) : Date :=
  let m0 : Int := d.month + n - 1
  let y : Int := d.year + Int.ediv m0 12
  let m : Int := Int.emod m0 12 + 1
  if d.day > daysInMonth y m then
    if m == 12 then ⟨y + 1, 1, d.day - daysInMonth y m⟩
    else ⟨y, m + 1, d.day - daysInMonth y m⟩
  else ⟨y, m, d.day⟩

/-- Day number of a date (days since 1970-01-01, Howard Hinnant
days-from-civil algorithm written with floor division).  Used to model the
pandas day difference computed at src/bookstore_app.py line 759. -/
def rataDie (dt : Date) : Int :=
  let y : Int := if dt.month ≤ 2 then dt.year - 1 else dt.year
  let era : Int := Int.ediv y 400
  let yoe : Int := y - era * 400
  let mp : Int := dt.month + (if dt.month > 2 then -3 else 9)
  let doy : Int := Int.ediv (153 * mp + 2) 5 + dt.day - 1
  let doe : Int := yoe * 365 + Int.ediv yoe 4 - Int.ediv yoe 100 + doy
  era * 146097 + doe - 719468

-- ==========================================
-- Metadata resolver (fetch_book_metadata, src/bookstore_app.py 161-223)
-- ==========================================

/-- Whitespace test of Python str.strip, restricted to the ASCII whitespace
characters. -/
def isSpaceChar (c : Char) : Bool :=
  c == ' ' || c == '\t' || c == '\n' || c == '\r' || c == '\x0b' || c == '\x0c'

/-- Drop leading whitespace characters. -/
def dropLeadingSpaces : List Char → List Char
  | [] => []
  | c :: t => if isSpaceChar c then dropLeadingSpaces t else c :: t

/-- Python str.strip: remove leading and trailing whitespace. -/
def pyStrip (s : String) : String :=
  ⟨(dropLeadingSpaces ((dropLeadingSpaces s.data).reverse)).reverse⟩

/-- Python str.replace("-", ""): remove every hyphen. -/
def removeHyphens (l : List Char) : List Char :=
  l.filter (fun c => !(c == '-'))

/-- Normalization of the input ISBN performed at line 168:
`clean_isbn = str(isbn).strip().replace("-", "")`. -/
def cleanIsbn (isbn : String) : String :=
  ⟨removeHyphens (pyStrip isbn).data⟩

/-- A usable Google Books match: the `volumeInfo` object of the first item,
with exactly the subfields the code reads (lines 180-192).  The field is
`none` when the corresponding JSON key is absent. -/
structure GoogleInfo where
  title : Option String
  authors : Option (List String)
  publisher : Option String
  description : Option String
  categories : List String
  thumbnail : Option String
  deriving Repr, DecidableEq

/-- A usable Open Library match: the object stored under the `ISBN:` key,
with exactly the subfields the code reads (lines 203-218).  `authorNames`
and `publisherNames` are the name lists; `subjectNames` the subject names
(empty when the key is absent, matching `info.get('subjects', [])`). -/
structure OLInfo where
  title : Option String
  authorNames : Option (List String)
  publisherNames : Option (List String)
  subjectNames : List String
  coverMedium : Option String
  deriving Repr, DecidableEq

/-- The normalized metadata shape returned by `fetch_book_metadata`. -/
structure Metadata where
  title : String
  author : String
  publisher : String
  description : String
  genre : String
  coverUrl : String
  deriving Repr, DecidableEq

/-- Mapping of a Google Books match, lines 182-192 of the source. -/
def mapGoogle (info : GoogleInfo) : Metadata :=
  let genre : String :=
    if info.categories.isEmpty then ""
    else String.intercalate (", ") info.categories
  { title := info.title.getD ("Unknown")
    author := String.intercalate (", ") (info.authors.getD (["Unknown"]))
    publisher := info.publisher.getD ("Unknown")
    description := info.description.getD ("")
    genre := genre
    coverUrl := info.thumbnail.getD ("") }

/-- Mapping of an Open Library match, lines 205-219 of the source.  Note
that the description is synthesized from the publisher string and the genre
is the join of at most the first three subject names. -/
def mapOpenLibrary (info : OLInfo) : Metadata :=
  let authors : String :=
    String.intercalate (", ") (info.authorNames.getD (["Unknown"]))
  let publishers : String :=
    String.intercalate (", ") (info.publisherNames.getD (["Unknown"]))
  { title := info.title.getD ("Unknown")
    author := authors
    publisher := publishers
    description := "Published by " ++ publishers
    genre := String.intercalate (", ") (info.subjectNames.take 3)
    coverUrl := info.coverMedium.getD ("") }

/-- The resolver chain of `fetch_book_metadata` (lines 161-223), over
abstract source outcomes: `google` / `openLib` is `some info` exactly when
the HTTP call succeeds with status 200 and the response holds a usable
match; every error, timeout, non-200 status or missing-items response is
`none`.  The Google source is consulted first and, on a match, its mapped
output is returned without consulting Open Library; otherwise the Open
Library outcome is mapped; if both lack a match the result is `none`
(the `return None` at line 223, i.e. NotFound). -/
def fetch_book_metadata (google : Option GoogleInfo) (openLib : Option OLInfo) :
    Option Metadata :=
  match google with
  | some info => some (mapGoogle info)
  | none => openLib.map mapOpenLibrary

/-- URL of the Google Books request built at line 175. -/
def googleUrl (clean : String) : String :=
  "https://www.googleapis.com/books/v1/volumes?q=isbn:" ++ clean

/-- URL of the Open Library request built at line 198. -/
def olUrl (clean : String) : String :=
  "https://openlibrary.org/api/books?bibkeys=ISBN:" ++ clean
    ++ "&jscmd=data&format=json"

/-- The network requests `fetch_book_metadata` issues for a given input.
The Google request (line 176) is issued unconditionally for every input
ISBN; the Open Library request (line 199) is issued exactly when the Google
attempt does not return a usable match.  There is no length test on the
normalized ISBN anywhere in lines 161-223. -/
def fetchRequests (isbn : String) (google : Option GoogleInfo) : List String :=
  let clean := cleanIsbn isbn
  match google with
  | some _ => [googleUrl clean]
  | none => [googleUrl clean, olUrl clean]

-- ==========================================
-- Data model (tables created at src/bookstore_app.py 56-105)
-- ==========================================

/-- A row of the `books` table.  `purchaseDate` and `distributorId` are
optional because the auto-create paths (sales import line 726, receiving
lines 791 and 843) insert NULL for them; NULL text columns are modelled by
the empty string. -/
structure Book where
  isbn : String
  title : String
  author : String
  publisher : String
  genre : String
  summary : String
  mrp : Int
  stock : Int
  shelf : String
  purchaseDate : Option Date
  distributorId : Option Int
  coverUrl : String
  deriving Repr, DecidableEq

/-- A row of the `sales` table (without the surrogate id). -/
structure SaleEvent where
  isbn : String
  qty : Int
  saleDate : Date
  deriving Repr, DecidableEq

/-- A row of the `distributors` table. -/
structure Distributor where
  id : Int
  name : String
  email : String
  emailCc : String
  returnWindowMonths : Int
  deriving Repr, DecidableEq

/-- A row of the `distributor_catalog` table (without the surrogate id). -/
structure CatalogEntry where
  distributorId : Int
  isbn : String
  title : String
  author : String
  publisher : String
  mrp : Int
  qtyAvailable : Int
  lastUpdated : Date
  deriving Repr, DecidableEq

/-- The mutable store the ledger operations touch: the `books` and `sales`
tables, in insertion order. -/
structure DB where
  books : List Book
  sales : List SaleEvent
  deriving Repr, DecidableEq

/-- Existence check `SELECT 1 FROM books WHERE isbn = ?` (and the stock
read `SELECT stock FROM books WHERE isbn = ?`): the first row with the
given ISBN. -/
def lookupBook (db : DB) (isbn : String) : Option Book :=
  db.books.find? (fun b => b.isbn == isbn)

/-- Stock of a book as the ledger reads it: the stored value, or 0 when no
row with that ISBN exists (a freshly auto-created book starts at 0). -/
def stockOf (db : DB) (isbn : String) : Int :=
  ((lookupBook db isbn).map Book.stock).getD 0

/-- `UPDATE books SET stock = ? WHERE isbn = ?` and
`UPDATE books SET stock = stock + ? WHERE isbn = ?`: every row whose ISBN
matches has its stock replaced by `f` of its current stock. -/
def updateStock (db : DB) (isbn : String) (f : Int → Int) : DB :=
  let upd := fun (b : Book) =>
    if b.isbn == isbn then { b with stock := f b.stock } else b
  { db with books := db.books.map upd }

/-- The book inserted by the identical auto-create statements of the
sales import (line 726) and the receiving paths (lines 791 and 843):
`INSERT INTO books (isbn, title, stock, author, genre, summary, cover_url)`
with stock 0, fields taken from the fetched metadata when available and
otherwise the literal placeholders of lines 720-724. -/
def metaBook (isbn : String) (meta : Option Metadata) : Book :=
  match meta with
  | some m =>
      { isbn := isbn, title := m.title, author := m.author, publisher := ""
        genre := m.genre, summary := m.description, mrp := 0, stock := 0
        shelf := "", purchaseDate := none, distributorId := none
        coverUrl := m.coverUrl }
  | none =>
      { isbn := isbn, title := "Unknown Title (" ++ isbn ++ ")"
        author := "Unknown", publisher := "", genre := "Unknown"
        summary := "", mrp := 0, stock := 0, shelf := ""
        purchaseDate := none, distributorId := none, coverUrl := "" }

/-- Create-if-missing step shared by the sales import and both receiving
paths: when no row with this ISBN exists, append the auto-created book. -/
def ensureBook (db : DB) (isbn : String) (meta : Option Metadata) : DB :=
  if (lookupBook db isbn).isSome then db
  else { db with books := db.books ++ [metaBook isbn meta] }

/-- One processed row of the sales import, render_sales_import lines
707-741: the row ISBN is stripped; a missing book is auto-created with
stock 0; a sale row is inserted unconditionally; then the stock is re-read
and replaced by `max 0 (stock - qty)`.  `meta` abstracts the
`fetch_book_metadata` outcome for this ISBN; `qty` is the row quantity
after the numeric coercion of line 702 (non-numeric cells become 0). -/
def processSalesRow (db : DB) (meta : Option Metadata) (rawIsbn : String)
    (qty : Int) (today : Date) : DB :=
  let t := pyStrip rawIsbn
  let db1 := ensureBook db t meta
  let db2 := { db1 with sales := db1.sales ++ [⟨t, qty, today⟩] }
  match lookupBook db2 t with
  | none => db2
  | some b => updateStock db2 t (fun _ => max 0 (b.stock - qty))

/-- The quick-scan receiving action, render_receiving lines 772-798: an
empty ISBN is rejected with no mutation; otherwise a missing book is
auto-created and `UPDATE books SET stock = stock + qty` runs.  The ISBN is
used as typed (no strip on this path). -/
def quickReceive (db : DB) (isbn : String) (qty : Int)
    (meta : Option Metadata) : DB :=
  if isbn == "" then db
  else
    let db1 := ensureBook db isbn meta
    updateStock db1 isbn (fun s => s + qty)

/-- One processed row of bulk receiving, render_receiving lines 822-846:
the row ISBN is stripped and an empty result skips the row; otherwise a
missing book is auto-created and `stock = stock + qty` runs, with no
clamping.  `qty` is the row quantity after the numeric coercion of line
816. -/
def bulkReceiveRow (db : DB) (rawIsbn : String) (qty : Int)
    (meta : Option Metadata) : DB :=
  let t := pyStrip rawIsbn
  if t == "" then db
  else
    let db1 := ensureBook db t meta
    updateStock db1 t (fun s => s + qty)

/-- The manual inventory edit, render_inventory lines 341-347:
`UPDATE books SET stock = ?, shelf_location = ? WHERE isbn = ?` with the
values typed into the form, stored directly. -/
def manualUpdate (db : DB) (isbn : String) (nStock : Int) (nShelf : String) :
    DB :=
  let upd := fun (b : Book) =>
    if b.isbn == isbn then { b with stock := nStock, shelf := nShelf } else b
  { db with books := db.books.map upd }

/-- The single-entry Add Book save, render_inventory lines 401-418: guarded
by `if title and dist and f_isbn`, then
`INSERT OR REPLACE INTO books (isbn, title, author, genre, summary, mrp,
stock, shelf_location, distributor_id, cover_url, purchase_date)`.
INSERT OR REPLACE deletes any existing row with this primary key and
inserts the new one; the publisher column is not in the column list and so
becomes NULL (modelled as the empty string). -/
def addBook (db : DB) (isbn title author genre summary : String)
    (mrp stock : Int) (shelf : String) (distId : Int) (cover : String)
    (today : Date) : DB :=
  if title == "" || isbn == "" then db
  else
    { db with books := db.books.filter (fun b => !(b.isbn == isbn)) ++
        [{ isbn := isbn, title := title, author := author, publisher := ""
           genre := genre, summary := summary, mrp := mrp, stock := stock
           shelf := shelf, purchaseDate := some today
           distributorId := some distId, coverUrl := cover }] }

/-- A parsed row of the bulk book import (render_inventory lines 441-482):
each field is `some v` when the column is present with a (parsed) value and
`none` when the column is absent.  Quantity and price cells are already
coerced to numbers. -/
structure BulkRow where
  isbn : Option String
  title : Option String
  author : Option String
  genre : Option String
  summary : Option String
  mrp : Option Int
  stock : Option Int
  shelf : Option String
  distributor : Option String
  deriving Repr, DecidableEq

/-- One processed row of the bulk book import, render_inventory lines
441-482: the ISBN is stripped and an empty result skips the row; title and
author count as supplied only when nonempty after stripping; missing title
or author triggers the metadata fetch (`meta` abstracts its outcome), whose
fields fill the gaps; remaining gaps get the placeholders of lines 465-467;
finally `INSERT OR IGNORE INTO books ...` leaves the table unchanged when a
row with this ISBN already exists. -/
def bulkImportRow (db : DB) (row : BulkRow) (meta : Option Metadata)
    (dists : List Distributor) (today : Date) : DB :=
  let bIsbn := pyStrip (row.isbn.getD (""))
  if bIsbn == "" then db
  else
    let hasTitle := match row.title with
      | some t => pyStrip t != ""
      | none => false
    let hasAuthor := match row.author with
      | some a => pyStrip a != ""
      | none => false
    let t0 : Option String := if hasTitle then row.title else none
    let a0 : Option String := if hasAuthor then row.author else none
    let g0 : String := row.genre.getD ("")
    let s0 : String := row.summary.getD ("")
    let fetched := if t0.isNone || a0.isNone then meta else none
    let t1 : Option String := match fetched with
      | some m => some (t0.getD m.title)
      | none => t0
    let a1 : Option String := match fetched with
      | some m => some (a0.getD m.author)
      | none => a0
    let g1 : String := match fetched with
      | some m => if g0 == "" then m.genre else g0
      | none => g0
    let s1 : String := match fetched with
      | some m => if s0 == "" then m.description else s0
      | none => s0
    let cover : String := match fetched with
      | some m => m.coverUrl
      | none => ""
    let bTitle := t1.getD ("Unknown Title (" ++ bIsbn ++ ")")
    let bAuthor := a1.getD ("Unknown")
    let bGenre := if g1 == "" then "Unknown" else g1
    let distId := ((dists.find?
        (fun d => d.name == row.distributor.getD (""))).map Distributor.id)
    if (lookupBook db bIsbn).isSome then db
    else
      { db with books := db.books ++
          [{ isbn := bIsbn, title := bTitle, author := bAuthor
             publisher := "", genre := bGenre, summary := s1
             mrp := row.mrp.getD 0, stock := row.stock.getD 0
             shelf := row.shelf.getD (""), purchaseDate := some today
             distributorId := distId, coverUrl := cover }] }

-- ==========================================
-- Catalog sync (render_distributors lines 553-583)
-- ==========================================

/-- A parsed row of a distributor stock-list upload; each field is `some v`
when the column is present, matching the `row.get` chains of lines
566-571. -/
structure CatRow where
  isbn : Option String
  rowId : Option String
  title : Option String
  name : Option String
  author : Option String
  writer : Option String
  publisher : Option String
  pub : Option String
  mrp : Option Int
  price : Option Int
  qty : Option Int
  stock : Option Int
  deriving Repr, DecidableEq

/-- The ISBN the upload resolves for a row, line 566:
`row.get('isbn', row.get('id', ''))`.  A row qualifies for insertion when
this value is nonempty (Python truthiness of the string at line 573). -/
def resolvedIsbn (r : CatRow) : String :=
  r.isbn.getD (r.rowId.getD (""))

/-- The catalog entry built from a qualifying row, lines 566-574, with the
alias fallbacks (`id` for isbn, `name` for title, `writer` for author,
`pub` for publisher, `price` for mrp, `stock` for qty). -/
def rowEntry (d : Int) (r : CatRow) (today : Date) : CatalogEntry :=
  { distributorId := d
    isbn := resolvedIsbn r
    title := r.title.getD (r.name.getD ("Unknown"))
    author := r.author.getD (r.writer.getD ("Unknown"))
    publisher := r.publisher.getD (r.pub.getD ("Unknown"))
    mrp := r.mrp.getD (r.price.getD 0)
    qtyAvailable := r.qty.getD (r.stock.getD 0)
    lastUpdated := today }

/-- The stock-list upload, render_distributors lines 553-583:
`DELETE FROM distributor_catalog WHERE distributor_id = ?` runs first
(unconditionally, before any row is examined); then every row with a
resolvable ISBN is appended; the reported count is the size of the inserted
batch (`len(data_batch)`, line 581). -/
def replaceCatalog (cat : List CatalogEntry) (d : Int) (rows : List CatRow)
    (today : Date) : List CatalogEntry × Nat :=
  let remaining := cat.filter (fun e => !(e.distributorId == d))
  let batch := rows.filterMap
      (fun r => if resolvedIsbn r != "" then some (rowEntry d r today) else none)
  (remaining ++ batch, batch.length)

-- ==========================================
-- Returns scheduler (render_returns lines 751-763)
-- ==========================================

/-- A displayed row of the Returns Due table.  `dueDate` and `daysLeft` are
`none` when the book has no purchase date stored (`date(NULL, ...)` is
NULL). -/
structure ReturnRow where
  title : String
  stock : Int
  dist : String
  dueDate : Option Date
  daysLeft : Option Int
  deriving Repr, DecidableEq

/-- The row the query of lines 753-759 produces for a book joined with its
distributor: due date by SQLite month addition, days left as the day
difference to today. -/
def mkReturnRow (b : Book) (d : Distributor) (today : Date) : ReturnRow :=
  let due := b.purchaseDate.map (fun p => addMonths p d.returnWindowMonths)
  { title := b.title, stock := b.stock, dist := d.name
    dueDate := due
    daysLeft := due.map (fun dd => rataDie dd - rataDie today) }

/-- The Returns Due query, lines 753-755:
`FROM books b JOIN distributors d ON b.distributor_id = d.id WHERE
b.stock > 0` — a book contributes a row exactly when its stock is positive
and its distributor reference resolves to an existing distributor. -/
def returnsDue (books : List Book) (dists : List Distributor) (today : Date) :
    List ReturnRow :=
  books.filterMap (fun b =>
    if 0 < b.stock then
      match b.distributorId.bind (fun i => dists.find? (fun d => d.id == i)) with
      | some d => some (mkReturnRow b d today)
      | none => none
    else none)

/-- The urgency styling of line 761:
`'color: red' if x < 0 else 'color: orange' if x < 30 else 'color: white'`
(red marks overdue, orange due-soon, white not-urgent). -/
def styleColor (x : Int) : String :=
  if x < 0 then "red" else if x < 30 then "orange" else "white"

-- ==========================================
-- Single-ISBN stock arithmetic (the projection claims C1 reasons about)
-- ==========================================

/-- A receive or sale operation on one ISBN, with its quantity. -/
inductive StockOp where
  | receive (qty : Int)
  | sale (qty : Int)
  deriving Repr, DecidableEq

/-- Quantity of an operation. -/
def StockOp.opQty : StockOp → Int
  | .receive q => q
  | .sale q => q

/-- Effect of one operation on the stock of its ISBN: receiving adds the
quantity unconditionally (line 795 / 846), a sale clamps at zero
(line 740, `new_stock = max(0, curr_stock - row['qty'])`). -/
def applyOp (s : Int) : StockOp → Int
  | .receive q => s + q
  | .sale q => max 0 (s - q)

/-- Final stock after a sequence of operations, starting from `s`. -/
def applyOps (s : Int) (ops : List StockOp) : Int :=
  ops.foldl applyOp s

/-- Sum of the received quantities of a sequence. -/
def sumReceived : List StockOp → Int
  | [] => 0
  | .receive q :: t => q + sumReceived t
  | .sale _ :: t => sumReceived t

/-- Sum of the sold quantities of a sequence. -/
def sumSold : List StockOp → Int
  | [] => 0
  | .receive _ :: t => sumSold t
  | .sale q :: t => q + sumSold t

-- Helper lemmas about lookup and update on the books table

theorem find?_map_update (l : List Book) (i : String) (f : Book → Book)
    (hf : ∀ b, (f b).isbn = b.isbn) :
    (l.map (fun b => if b.isbn == i then f b else b)).find? (fun b => b.isbn == i)
      = (l.find? (fun b => b.isbn == i)).map f := by
  induction l with
  | nil => rfl
  | cons b t ih =>
    by_cases h : b.isbn = i
    · simp [List.find?_cons, h, hf b]
    · have hb : (b.isbn == i) = false := by simp [h]
      rw [List.map_cons, if_neg (by simp [hb])]
      rw [List.find?_cons_of_neg _ (by simp [hb])]
      rw [List.find?_cons_of_neg _ (by simp [hb])]
      exact ih

theorem find?_append_of_none {α : Type} (p : α → Bool) (l1 l2 : List α)
    (h : l1.find? p = none) : (l1 ++ l2).find? p = l2.find? p := by
  induction l1 with
  | nil => rfl
  | cons a t ih =>
    cases ha : p a with
    | true =>
      rw [List.find?_cons_of_pos _ ha] at h
      exact absurd h (by simp)
    | false =>
      rw [List.find?_cons_of_neg _ (by simp [ha])] at h
      rw [List.cons_append, List.find?_cons_of_neg _ (by simp [ha])]
      exact ih h

theorem metaBook_isbn (i : String) (m : Option Metadata) :
    (metaBook i m).isbn = i := by
  cases m <;> rfl

theorem metaBook_stock (i : String) (m : Option Metadata) :
    (metaBook i m).stock = 0 := by
  cases m <;> rfl

theorem updateStock_sales (db : DB) (t : String) (f : Int → Int) :
    (updateStock db t f).sales = db.sales := rfl

theorem ensureBook_sales (db : DB) (t : String) (m : Option Metadata) :
    (ensureBook db t m).sales = db.sales := by
  unfold ensureBook
  split <;> rfl

theorem lookup_ensureBook (db : DB) (t : String) (m : Option Metadata) :
    lookupBook (ensureBook db t m) t
      = some ((lookupBook db t).getD (metaBook t m)) := by
  unfold ensureBook
  cases h : lookupBook db t with
  | some b =>
    simp only [Option.isSome_some, if_true, Option.getD_some]
    exact h
  | none =>
    simp only [Option.isSome_none, Bool.false_eq_true, if_false, Option.getD_none]
    show (db.books ++ [metaBook t m]).find? (fun b => b.isbn == t) = some (metaBook t m)
    rw [find?_append_of_none _ _ _ h]
    simp [List.find?_cons, metaBook_isbn]

theorem updateStock_stockOf (db : DB) (t : String) (f : Int → Int) :
    stockOf (updateStock db t f) t
      = ((lookupBook db t).map (fun b => f b.stock)).getD ((0 : Int)) := by
  show (((db.books.map (fun b => if b.isbn == t then { b with stock := f b.stock } else b)).find? (fun b => b.isbn == t)).map Book.stock).getD 0 = _
  rw [find?_map_update db.books t (fun b => { b with stock := f b.stock }) (fun b => rfl)]
  cases h : db.books.find? (fun b => b.isbn == t) with
  | some b => simp [lookupBook, h]
  | none => simp [lookupBook, h]

-- Bridge lemmas: the effect of one ledger operation on the stock of its
-- (normalized) ISBN and on the sales table.

theorem processSalesRow_stockOf (db : DB) (m : Option Metadata)
    (raw : String) (q : Int) (today : Date) :
    stockOf (processSalesRow db m raw q today) (pyStrip raw)
      = max 0 (stockOf db (pyStrip raw) - q) := by
  simp only [processSalesRow]
  split
  case _ heq =>
    have h2 : lookupBook (ensureBook db (pyStrip raw) m) (pyStrip raw) = none := heq
    rw [lookup_ensureBook] at h2
    cases h2
  case _ b heq =>
    have h2 : lookupBook (ensureBook db (pyStrip raw) m) (pyStrip raw)
        = some ((lookupBook db (pyStrip raw)).getD (metaBook (pyStrip raw) m)) :=
      lookup_ensureBook db (pyStrip raw) m
    have hb : b = (lookupBook db (pyStrip raw)).getD (metaBook (pyStrip raw) m) := by
      have h4 : some b = some ((lookupBook db (pyStrip raw)).getD (metaBook (pyStrip raw) m)) := by
        rw [← heq]; exact h2
      exact Option.some_injective _ h4
    rw [updateStock_stockOf, heq]
    show max 0 (b.stock - q) = max 0 (stockOf db (pyStrip raw) - q)
    rw [hb]
    cases h : lookupBook db (pyStrip raw) with
    | some b0 => simp [stockOf, h]
    | none => simp [stockOf, h, metaBook_stock]

theorem processSalesRow_sales (db : DB) (m : Option Metadata)
    (raw : String) (q : Int) (today : Date) :
    (processSalesRow db m raw q today).sales
      = db.sales ++ [⟨pyStrip raw, q, today⟩] := by
  simp only [processSalesRow]
  split
  case _ heq =>
    show (ensureBook db (pyStrip raw) m).sales ++ _ = _
    rw [ensureBook_sales]
  case _ b heq =>
    rw [updateStock_sales]
    show (ensureBook db (pyStrip raw) m).sales ++ _ = _
    rw [ensureBook_sales]

theorem bulkReceiveRow_stockOf (db : DB) (raw : String) (q : Int)
    (m : Option Metadata) (h : pyStrip raw ≠ "") :
    stockOf (bulkReceiveRow db raw q m) (pyStrip raw)
      = stockOf db (pyStrip raw) + q := by
  simp only [bulkReceiveRow]
  rw [if_neg (by simp [h])]
  rw [updateStock_stockOf, lookup_ensureBook]
  show ((lookupBook db (pyStrip raw)).getD (metaBook (pyStrip raw) m)).stock + q
      = stockOf db (pyStrip raw) + q
  cases hdb : lookupBook db (pyStrip raw) with
  | some b => simp [stockOf, hdb]
  | none => simp [stockOf, hdb, metaBook_stock]

-- Arithmetic facts about the single-ISBN operation fold

theorem applyOps_nonneg (ops : List StockOp) :
    ∀ s : Int, 0 ≤ s → (∀ op ∈ ops, 0 ≤ op.opQty) → 0 ≤ applyOps s ops := by
  induction ops with
  | nil => intro s hs _; exact hs
  | cons op t ih =>
    intro s hs hq
    cases op with
    | receive q =>
      have hq0 : 0 ≤ q := hq (StockOp.receive q) (List.mem_cons_self _ _)
      exact ih (s + q) (by omega) (fun o ho => hq o (List.mem_cons_of_mem _ ho))
    | sale q =>
      exact ih (max 0 (s - q)) (le_max_left _ _)
        (fun o ho => hq o (List.mem_cons_of_mem _ ho))

theorem applyOps_ge_sum (ops : List StockOp) :
    ∀ s : Int, s + sumReceived ops - sumSold ops ≤ applyOps s ops := by
  induction ops with
  | nil => intro s; simp [applyOps, sumReceived, sumSold]
  | cons op t ih =>
    intro s
    cases op with
    | receive q =>
      have h1 := ih (s + q)
      show s + sumReceived (StockOp.receive q :: t)
          - sumSold (StockOp.receive q :: t) ≤ applyOps (s + q) t
      simp only [sumReceived, sumSold]
      omega
    | sale q =>
      have h1 := ih (max 0 (s - q))
      have h2 : s - q ≤ max 0 (s - q) := le_max_right _ _
      show s + sumReceived (StockOp.sale q :: t)
          - sumSold (StockOp.sale q :: t) ≤ applyOps (max 0 (s - q)) t
      simp only [sumReceived, sumSold]
      omega

-- C1

/-- Claim C1, corrected.  The final stock is the order-dependent left fold
of the operations, in which each sale clamps at 0 individually (applyOp);
it is bounded below by max 0 (sum received - sum sold) but need not equal
it, and interleavings of the same multiset can differ.  The two trailing
conjuncts tie the fold steps to the actual ledger operations of the
program: a processed sales row performs exactly one sale step on the stock
of its ISBN, and a bulk receiving row exactly one receive step. -/
theorem stock_fold_lower_bound (ops : List StockOp)
    (h : ∀ op ∈ ops, 0 ≤ op.opQty) :
    max 0 (sumReceived ops - sumSold ops) ≤ applyOps 0 ops
    ∧ (∀ db m raw q today, stockOf (processSalesRow db m raw q today) (pyStrip raw)
        = applyOp (stockOf db (pyStrip raw)) (StockOp.sale q))
    ∧ (∀ db raw q m, pyStrip raw ≠ "" → stockOf (bulkReceiveRow db raw q m) (pyStrip raw)
        = applyOp (stockOf db (pyStrip raw)) (StockOp.receive q)) := by
  refine ⟨?_, ?_, ?_⟩
  · have hA := applyOps_nonneg ops 0 le_rfl h
    have hB := applyOps_ge_sum ops 0
    have h0 : (0 : Int) + sumReceived ops - sumSold ops
        = sumReceived ops - sumSold ops := by ring
    rw [h0] at hB
    exact max_le hA hB
  · intro db m raw q today
    exact processSalesRow_stockOf db m raw q today
  · intro db raw q m h2
    exact bulkReceiveRow_stockOf db raw q m h2

/-- Witness for stock_fold_lower_bound at a concrete operation list. -/
theorem stock_fold_lower_bound_witness :
    (∀ op ∈ [StockOp.receive 3, StockOp.sale 5], 0 ≤ op.opQty)
    ∧ max 0 (sumReceived [StockOp.receive 3, StockOp.sale 5]
        - sumSold [StockOp.receive 3, StockOp.sale 5])
      ≤ applyOps 0 [StockOp.receive 3, StockOp.sale 5] := by
  refine ⟨by decide, ?_⟩
  exact (stock_fold_lower_bound [StockOp.receive 3, StockOp.sale 5] (by decide)).1

/-- Counterexample to claim C1 as stated: starting from the empty store,
selling 5 and then receiving 3 of ISBN 111 leaves stock 3, while receiving
3 and then selling 5 leaves stock 0; the claimed closed form
max 0 (received - sold) gives 0, so the final stock neither equals the
closed form nor is independent of the interleaving order. -/
theorem stock_sum_interleaving_counterexample :
    stockOf (bulkReceiveRow (processSalesRow ⟨[], []⟩ none ("111") 5 ⟨2024, 1, 1⟩)
        ("111") 3 none) ("111") = 3
    ∧ stockOf (processSalesRow (bulkReceiveRow ⟨[], []⟩ ("111") 3 none)
        none ("111") 5 ⟨2024, 1, 1⟩) ("111") = 0
    ∧ max 0 (sumReceived [StockOp.receive 3, StockOp.sale 5]
        - sumSold [StockOp.receive 3, StockOp.sale 5]) = 0
    ∧ applyOps 0 [StockOp.sale 5, StockOp.receive 3] = 3
    ∧ applyOps 0 [StockOp.receive 3, StockOp.sale 5] = 0
    ∧ ((3 : Int) ≠ 0) := by
  exact ⟨by decide, by decide, by decide, by decide, by decide, by decide⟩

-- C2 helpers

theorem ensureBook_books_nonneg (db : DB) (t : String) (m : Option Metadata)
    (h : ∀ b ∈ db.books, 0 ≤ b.stock) :
    ∀ b ∈ (ensureBook db t m).books, 0 ≤ b.stock := by
  unfold ensureBook
  split
  · exact h
  · intro b hb
    rcases List.mem_append.mp hb with h1 | h1
    · exact h b h1
    · have h2 : b = metaBook t m := List.mem_singleton.mp h1
      rw [h2, metaBook_stock]

theorem updateAdd_nonneg (db : DB) (t : String) (q : Int) (hq : 0 ≤ q)
    (h : ∀ b ∈ db.books, 0 ≤ b.stock) :
    ∀ b ∈ (updateStock db t (fun s => s + q)).books, 0 ≤ b.stock := by
  intro b hb
  simp only [updateStock] at hb
  rcases List.mem_map.mp hb with ⟨b0, hb0, heq⟩
  by_cases hc : b0.isbn = t
  · rw [if_pos (by simp [hc])] at heq
    have h0 := h b0 hb0
    rw [← heq]
    show 0 ≤ b0.stock + q
    omega
  · rw [if_neg (by simp [hc])] at heq
    rw [← heq]
    exact h b0 hb0

-- C2

/-- Claim C2, corrected.  Only the sales-import path clamps: the stock a
processed sales row stores for its ISBN is max 0 of the decrement, hence
never negative.  The receiving paths add the supplied quantity with no
clamp, so they preserve nonnegativity only when the quantity itself is
nonnegative; the manual inventory edit stores the supplied value directly
(see the counterexample for the negative cases). -/
theorem sale_clamp_nonneg (db : DB) (m : Option Metadata) (raw : String)
    (q : Int) (today : Date) (db2 : DB) (raw2 : String) (q2 : Int)
    (m2 : Option Metadata)
    (hnn : ∀ b ∈ db2.books, 0 ≤ b.stock) (hq2 : 0 ≤ q2) :
    0 ≤ stockOf (processSalesRow db m raw q today) (pyStrip raw)
    ∧ (∀ b ∈ (bulkReceiveRow db2 raw2 q2 m2).books, 0 ≤ b.stock) := by
  constructor
  · rw [processSalesRow_stockOf]
    exact le_max_left _ _
  · simp only [bulkReceiveRow]
    split
    · exact hnn
    · exact updateAdd_nonneg _ _ _ hq2 (ensureBook_books_nonneg db2 _ m2 hnn)

/-- Witness for sale_clamp_nonneg at a concrete store and row. -/
theorem sale_clamp_nonneg_witness :
    (∀ b ∈ (DB.mk [] []).books, 0 ≤ b.stock) ∧ ((0 : Int) ≤ 2)
    ∧ 0 ≤ stockOf (processSalesRow ⟨[], []⟩ none ("111") 7 ⟨2024, 1, 1⟩) (pyStrip ("111"))
    ∧ (∀ b ∈ (bulkReceiveRow ⟨[], []⟩ ("222") 2 none).books, 0 ≤ b.stock) := by
  refine ⟨by decide, by decide, ?_, ?_⟩
  · exact (sale_clamp_nonneg ⟨[], []⟩ none ("111") 7 ⟨2024, 1, 1⟩ ⟨[], []⟩ ("222") 2 none
      (by decide) (by decide)).1
  · exact (sale_clamp_nonneg ⟨[], []⟩ none ("111") 7 ⟨2024, 1, 1⟩ ⟨[], []⟩ ("222") 2 none
      (by decide) (by decide)).2

/-- Counterexample to claim C2 as stated: on a store holding one book with
stock 0, a bulk receiving row with quantity -5 (the numeric coercion of
line 816 does not reject negatives) stores stock -5, and a manual edit with
value -1 stores -1; no clamping to 0 happens on either path. -/
theorem stock_nonneg_counterexample :
    stockOf (bulkReceiveRow ⟨[⟨"B1", "T", "A", "", "", "", 0, 0, "", none, none, ""⟩], []⟩
        ("B1") (-5) none) ("B1") = -5
    ∧ stockOf (manualUpdate ⟨[⟨"B1", "T", "A", "", "", "", 0, 0, "", none, none, ""⟩], []⟩
        ("B1") (-1) ("A1")) ("B1") = -1
    ∧ ((-5 : Int) < 0) := by
  exact ⟨by decide, by decide, by decide⟩

-- C3

/-- Claim C3, confirmed.  One processed sales row appends exactly one
SaleEvent (with the row ISBN and quantity), whatever the stock situation,
and in the same row-processing step the stock of that ISBN becomes
max 0 (previous stock - quantity) — in particular the event is appended
even when the decrement clamps at 0. -/
theorem recordSale_appends_one_event (db : DB) (m : Option Metadata)
    (raw : String) (q : Int) (today : Date) :
    (processSalesRow db m raw q today).sales = db.sales ++ [⟨pyStrip raw, q, today⟩]
    ∧ (processSalesRow db m raw q today).sales.length = db.sales.length + 1
    ∧ stockOf (processSalesRow db m raw q today) (pyStrip raw)
        = max 0 (stockOf db (pyStrip raw) - q) := by
  refine ⟨processSalesRow_sales db m raw q today, ?_,
    processSalesRow_stockOf db m raw q today⟩
  rw [processSalesRow_sales]
  simp

-- C4 helpers

/-- Descriptive content of a book row: everything except the stock count
(the stock field is zeroed so that equality of images states that all
other fields agree). -/
def descr (b : Book) : Book := { b with stock := 0 }

theorem ensureBook_of_found (db : DB) (t : String) (m : Option Metadata)
    (b : Book) (h : lookupBook db t = some b) : ensureBook db t m = db := by
  unfold ensureBook
  rw [h]
  rfl

theorem updateStock_map_descr (db : DB) (t : String) (f : Int → Int) :
    (updateStock db t f).books.map descr = db.books.map descr := by
  simp only [updateStock, List.map_map]
  apply List.map_congr_left
  intro b _
  by_cases h : b.isbn = t
  · simp [Function.comp, h, descr]
  · simp [Function.comp, h]

theorem find?_filter_not {α : Type} (p : α → Bool) (l : List α) :
    (l.filter (fun a => !(p a))).find? p = none := by
  induction l with
  | nil => rfl
  | cons a t ih =>
    by_cases h : p a = true
    · simp [List.filter_cons, h, ih]
    · simp [List.filter_cons, h, List.find?_cons, ih]

-- C4

/-- Claim C4, confirmed.  When a book with the given ISBN already exists:
a bulk-import row for that ISBN leaves the store entirely unchanged
(INSERT OR IGNORE); a bulk receiving row changes at most the stock count,
leaving every descriptive field of every book as it was; and the explicit
single-entry Add Book save replaces the full record with exactly the
supplied values (INSERT OR REPLACE), the publisher column being reset to
NULL because it is absent from its column list. -/
theorem upsert_preserves_curated_fields (db : DB) (i : String) (b : Book)
    (row : BulkRow) (meta m2 : Option Metadata) (dists : List Distributor)
    (today : Date) (raw2 : String) (q2 : Int)
    (title author genre summary shelf cover : String) (mrp stock : Int)
    (distId : Int)
    (hfound : lookupBook db i = some b)
    (hrow : pyStrip (row.isbn.getD ("")) = i)
    (hraw2 : pyStrip raw2 = i)
    (ht : title ≠ "") (hi : i ≠ "") :
    bulkImportRow db row meta dists today = db
    ∧ (bulkReceiveRow db raw2 q2 m2).books.map descr = db.books.map descr
    ∧ lookupBook (addBook db i title author genre summary mrp stock shelf distId cover today) i
        = some ⟨i, title, author, "", genre, summary, mrp, stock, shelf,
            some today, some distId, cover⟩ := by
  refine ⟨?_, ?_, ?_⟩
  · simp only [bulkImportRow, hrow]
    rw [if_neg (by simp [hi])]
    rw [hfound]
    rfl
  · simp only [bulkReceiveRow, hraw2]
    split
    · rfl
    · rw [ensureBook_of_found db i m2 b hfound]
      exact updateStock_map_descr db i _
  · simp only [addBook]
    rw [if_neg (by simp [ht, hi])]
    show ((db.books.filter (fun b => !(b.isbn == i))) ++ _).find? (fun b => b.isbn == i) = _
    rw [find?_append_of_none _ _ _ (find?_filter_not _ _)]
    simp [List.find?_cons]

/-- Witness for upsert_preserves_curated_fields at a concrete store. -/
theorem upsert_preserves_curated_fields_witness :
    lookupBook ⟨[⟨"X1", "Old Title", "Old Author", "P", "G", "S", 9, 4, "A1",
        none, none, "c"⟩], []⟩ ("X1")
      = some ⟨"X1", "Old Title", "Old Author", "P", "G", "S", 9, 4, "A1", none, none, "c"⟩
    ∧ bulkImportRow ⟨[⟨"X1", "Old Title", "Old Author", "P", "G", "S", 9, 4, "A1",
        none, none, "c"⟩], []⟩
        ⟨some ("X1"), some ("New"), none, none, none, none, none, none, none⟩
        none [] ⟨2024, 5, 1⟩
      = ⟨[⟨"X1", "Old Title", "Old Author", "P", "G", "S", 9, 4, "A1", none, none, "c"⟩], []⟩
    ∧ (bulkReceiveRow ⟨[⟨"X1", "Old Title", "Old Author", "P", "G", "S", 9, 4, "A1",
        none, none, "c"⟩], []⟩ ("X1") 3 none).books.map descr
      = [⟨"X1", "Old Title", "Old Author", "P", "G", "S", 9, 4, "A1", none, none, "c"⟩].map descr
    ∧ lookupBook (addBook ⟨[⟨"X1", "Old Title", "Old Author", "P", "G", "S", 9, 4, "A1",
        none, none, "c"⟩], []⟩ ("X1") ("New Title") ("New Author") ("NG") ("NS") 7 2 ("B2") 5 ("c2")
        ⟨2024, 5, 1⟩) ("X1")
      = some ⟨"X1", "New Title", "New Author", "", "NG", "NS", 7, 2, "B2",
          some ⟨2024, 5, 1⟩, some 5, "c2"⟩ := by
  have h := upsert_preserves_curated_fields
    ⟨[⟨"X1", "Old Title", "Old Author", "P", "G", "S", 9, 4, "A1", none, none, "c"⟩], []⟩
    ("X1") ⟨"X1", "Old Title", "Old Author", "P", "G", "S", 9, 4, "A1", none, none, "c"⟩
    ⟨some ("X1"), some ("New"), none, none, none, none, none, none, none⟩
    none none [] ⟨2024, 5, 1⟩ ("X1") 3
    ("New Title") ("New Author") ("NG") ("NS") ("B2") ("c2") 7 2 5
    (by decide) (by decide) (by decide) (by decide) (by decide)
  exact ⟨by decide, h.1, h.2.1, h.2.2⟩

-- Catalog-sync helpers

theorem filter_filter_not {α : Type} (p : α → Bool) (l : List α) :
    (l.filter (fun a => !(p a))).filter p = [] := by
  induction l with
  | nil => rfl
  | cons a t ih =>
    by_cases h : p a = true
    · simp [List.filter_cons, h, ih]
    · simp [List.filter_cons, h, ih]

theorem length_filterMap_if {α β : Type} (p : α → Bool) (g : α → β)
    (l : List α) :
    (l.filterMap (fun a => if p a then some (g a) else none)).length
      = (l.filter p).length := by
  induction l with
  | nil => rfl
  | cons a t ih =>
    by_cases h : p a = true
    · simp [List.filterMap_cons, List.filter_cons, h, ih]
    · simp [List.filterMap_cons, List.filter_cons, h, ih]

/-- Every entry of an inserted batch carries the distributor id it was
inserted for. -/
theorem batch_mem_dist (d : Int) (rows : List CatRow) (today : Date)
    (e : CatalogEntry)
    (he : e ∈ rows.filterMap
      (fun r => if resolvedIsbn r != "" then some (rowEntry d r today) else none)) :
    e.distributorId = d := by
  rcases List.mem_filterMap.mp he with ⟨r, hr, hmap⟩
  by_cases h : (resolvedIsbn r != "") = true
  · rw [if_pos h] at hmap
    cases hmap
    rfl
  · rw [if_neg h] at hmap
    cases hmap

theorem batch_filter_self (d : Int) (rows : List CatRow) (today : Date) :
    (rows.filterMap
        (fun r => if resolvedIsbn r != "" then some (rowEntry d r today) else none)).filter
      (fun e => e.distributorId == d)
    = rows.filterMap
        (fun r => if resolvedIsbn r != "" then some (rowEntry d r today) else none) := by
  rw [List.filter_eq_self]
  intro e he
  simp [batch_mem_dist d rows today e he]

theorem batch_filter_other (d d2 : Int) (rows : List CatRow) (today : Date)
    (hne : d2 ≠ d) :
    (rows.filterMap
        (fun r => if resolvedIsbn r != "" then some (rowEntry d r today) else none)).filter
      (fun e => e.distributorId == d2)
    = [] := by
  rw [List.filter_eq_nil_iff]
  intro e he
  have := batch_mem_dist d rows today e he
  simp [this]
  omega

theorem batch_filter_not_self (d : Int) (rows : List CatRow) (today : Date) :
    (rows.filterMap
        (fun r => if resolvedIsbn r != "" then some (rowEntry d r today) else none)).filter
      (fun e => !(e.distributorId == d))
    = [] := by
  rw [List.filter_eq_nil_iff]
  intro e he
  simp [batch_mem_dist d rows today e he]

theorem filter_idem {α : Type} (p : α → Bool) (l : List α) :
    (l.filter p).filter p = l.filter p := by
  rw [List.filter_eq_self]
  intro a ha
  exact (List.mem_filter.mp ha).2

/-- Normal form of one upload: surviving entries of other distributors
followed by the inserted batch. -/
theorem replaceCatalog_fst (cat : List CatalogEntry) (d : Int)
    (rows : List CatRow) (today : Date) :
    (replaceCatalog cat d rows today).1
      = cat.filter (fun e => !(e.distributorId == d))
        ++ rows.filterMap
            (fun r => if resolvedIsbn r != "" then some (rowEntry d r today) else none) := rfl

theorem replaceCatalog_snd (cat : List CatalogEntry) (d : Int)
    (rows : List CatRow) (today : Date) :
    (replaceCatalog cat d rows today).2
      = (rows.filterMap
          (fun r => if resolvedIsbn r != "" then some (rowEntry d r today) else none)).length := rfl

theorem replaceCatalog_twice_fst (cat : List CatalogEntry) (d : Int)
    (rows1 rows2 : List CatRow) (t1 t2 : Date) :
    (replaceCatalog (replaceCatalog cat d rows1 t1).1 d rows2 t2).1
      = cat.filter (fun e => !(e.distributorId == d))
        ++ rows2.filterMap
            (fun r => if resolvedIsbn r != "" then some (rowEntry d r t2) else none) := by
  rw [replaceCatalog_fst, replaceCatalog_fst, List.filter_append, filter_idem,
    batch_filter_not_self, List.append_nil]

-- C5

/-- Claim C5, confirmed.  Running the stock-list upload twice for the same
distributor leaves exactly the second upload qualifying rows as that
distributor catalog entries; the entries of every other distributor are
exactly what they were before either upload; the reported count is the
number of rows with a resolvable ISBN (rows without one are dropped and
not counted) and equals the number of entries actually present for the
distributor afterwards. -/
theorem replaceCatalog_second_upload_wins (cat : List CatalogEntry) (d : Int)
    (rows1 rows2 : List CatRow) (t1 t2 : Date) (d2 : Int) (hne : d2 ≠ d) :
    ((replaceCatalog (replaceCatalog cat d rows1 t1).1 d rows2 t2).1.filter
        (fun e => e.distributorId == d)
      = rows2.filterMap
          (fun r => if resolvedIsbn r != "" then some (rowEntry d r t2) else none))
    ∧ ((replaceCatalog (replaceCatalog cat d rows1 t1).1 d rows2 t2).1.filter
        (fun e => e.distributorId == d2)
      = cat.filter (fun e => e.distributorId == d2))
    ∧ (replaceCatalog (replaceCatalog cat d rows1 t1).1 d rows2 t2).2
      = (rows2.filter (fun r => resolvedIsbn r != "")).length
    ∧ (replaceCatalog (replaceCatalog cat d rows1 t1).1 d rows2 t2).2
      = ((replaceCatalog (replaceCatalog cat d rows1 t1).1 d rows2 t2).1.filter
          (fun e => e.distributorId == d)).length := by
  refine ⟨?_, ?_, ?_, ?_⟩
  · rw [replaceCatalog_twice_fst, List.filter_append, filter_filter_not,
      batch_filter_self, List.nil_append]
  · rw [replaceCatalog_twice_fst, List.filter_append,
      batch_filter_other d d2 rows2 t2 hne, List.append_nil]
    rw [List.filter_comm]
    rw [List.filter_eq_self]
    intro e he
    have h2 : e.distributorId = d2 := by
      have := (List.mem_filter.mp he).2
      simpa using this
    simp [h2]
    omega
  · rw [replaceCatalog_snd]
    exact length_filterMap_if _ _ rows2
  · rw [replaceCatalog_snd, replaceCatalog_twice_fst, List.filter_append,
      filter_filter_not, batch_filter_self, List.nil_append]

-- C10

/-- Claim C10, confirmed.  When no uploaded row has a resolvable ISBN, the
distributor's previously stored entries are still deleted (the DELETE runs
before any row is examined), nothing is inserted, the distributor's catalog
ends empty and the count of inserted rows is 0; other distributors'
entries survive. -/
theorem empty_upload_clears_catalog (cat : List CatalogEntry) (d : Int)
    (rows : List CatRow) (today : Date)
    (h : ∀ r ∈ rows, resolvedIsbn r = "") :
    (replaceCatalog cat d rows today).1.filter (fun e => e.distributorId == d) = []
    ∧ (replaceCatalog cat d rows today).1
        = cat.filter (fun e => !(e.distributorId == d))
    ∧ (replaceCatalog cat d rows today).2 = 0 := by
  have hbatch : rows.filterMap
      (fun r => if resolvedIsbn r != "" then some (rowEntry d r today) else none)
      = [] := by
    rw [List.filterMap_eq_nil_iff]
    intro r hr
    rw [if_neg]
    simp [h r hr]
  simp only [replaceCatalog]
  rw [hbatch]
  refine ⟨?_, by simp, by simp⟩
  rw [List.append_nil]
  exact filter_filter_not _ _

/-- Witness for replaceCatalog_second_upload_wins at concrete uploads. -/
theorem replaceCatalog_second_upload_wins_witness :
    ((2 : Int) ≠ 1)
    ∧ ((replaceCatalog (replaceCatalog
          [⟨2, "O1", "T", "A", "P", 5, 1, ⟨2024, 1, 1⟩⟩] 1
          [⟨some ("111"), none, none, none, none, none, none, none, none, none, none, none⟩] ⟨2024, 2, 1⟩).1
          1 [⟨some ("222"), none, none, none, none, none, none, none, none, none, none, none⟩,
             ⟨none, none, some ("NoIsbn"), none, none, none, none, none, none, none, none, none⟩] ⟨2024, 3, 1⟩).1.filter
        (fun e => e.distributorId == 1)
      = [rowEntry 1 ⟨some ("222"), none, none, none, none, none, none, none, none, none, none, none⟩ ⟨2024, 3, 1⟩])
    ∧ ((replaceCatalog (replaceCatalog
          [⟨2, "O1", "T", "A", "P", 5, 1, ⟨2024, 1, 1⟩⟩] 1
          [⟨some ("111"), none, none, none, none, none, none, none, none, none, none, none⟩] ⟨2024, 2, 1⟩).1
          1 [⟨some ("222"), none, none, none, none, none, none, none, none, none, none, none⟩,
             ⟨none, none, some ("NoIsbn"), none, none, none, none, none, none, none, none, none⟩] ⟨2024, 3, 1⟩).2 = 1) := by
  have h := replaceCatalog_second_upload_wins
    [⟨2, "O1", "T", "A", "P", 5, 1, ⟨2024, 1, 1⟩⟩] 1
    [⟨some ("111"), none, none, none, none, none, none, none, none, none, none, none⟩]
    [⟨some ("222"), none, none, none, none, none, none, none, none, none, none, none⟩,
     ⟨none, none, some ("NoIsbn"), none, none, none, none, none, none, none, none, none⟩]
    ⟨2024, 2, 1⟩ ⟨2024, 3, 1⟩ 2 (by decide)
  refine ⟨by decide, ?_, ?_⟩
  · rw [h.1]
    decide
  · rw [h.2.2.1]
    decide

/-- Witness for empty_upload_clears_catalog at a concrete upload: the
distributor previously had one entry, the upload has one unresolvable row,
and the entry is gone afterwards. -/
theorem empty_upload_clears_catalog_witness :
    (∀ r ∈ [(⟨none, none, some ("T"), none, none, none, none, none, none, none, none, none⟩ : CatRow)],
        resolvedIsbn r = "")
    ∧ (replaceCatalog [⟨1, "111", "T", "A", "P", 5, 1, ⟨2024, 1, 1⟩⟩] 1
        [⟨none, none, some ("T"), none, none, none, none, none, none, none, none, none⟩]
        ⟨2024, 2, 1⟩).1.filter (fun e => e.distributorId == 1) = []
    ∧ (replaceCatalog [⟨1, "111", "T", "A", "P", 5, 1, ⟨2024, 1, 1⟩⟩] 1
        [⟨none, none, some ("T"), none, none, none, none, none, none, none, none, none⟩]
        ⟨2024, 2, 1⟩).2 = 0 := by
  have h := empty_upload_clears_catalog [⟨1, "111", "T", "A", "P", 5, 1, ⟨2024, 1, 1⟩⟩] 1
    [⟨none, none, some ("T"), none, none, none, none, none, none, none, none, none⟩]
    ⟨2024, 2, 1⟩ (by decide)
  exact ⟨by decide, h.1, h.2.2⟩

-- C6

/-- Claim C6, corrected.  The fallback is as claimed: when Google Books
yields no usable match, the result is exactly the Open Library mapped
output, and NotFound when that too is missing.  Title, author and
publisher default to the placeholder Unknown and summary and cover to
empty strings — but genre also defaults to the empty string (not Unknown),
and the Open Library summary is synthesized as the string
Published by <publishers> rather than taken from the source. -/
theorem resolver_fallback_and_placeholders (ol : Option OLInfo)
    (g : GoogleInfo) (i : OLInfo) (hg : g.categories = []) :
    fetch_book_metadata none ol = ol.map mapOpenLibrary
    ∧ fetch_book_metadata none none = none
    ∧ (mapGoogle g).genre = ""
    ∧ (g.title = none → (mapGoogle g).title = "Unknown")
    ∧ (g.authors = none → (mapGoogle g).author = "Unknown")
    ∧ (g.publisher = none → (mapGoogle g).publisher = "Unknown")
    ∧ (g.description = none → (mapGoogle g).description = "")
    ∧ (g.thumbnail = none → (mapGoogle g).coverUrl = "")
    ∧ (i.title = none → (mapOpenLibrary i).title = "Unknown")
    ∧ (i.authorNames = none → (mapOpenLibrary i).author = "Unknown")
    ∧ (i.subjectNames = [] → (mapOpenLibrary i).genre = "")
    ∧ (i.coverMedium = none → (mapOpenLibrary i).coverUrl = "")
    ∧ (mapOpenLibrary i).description
        = "Published by " ++ (mapOpenLibrary i).publisher := by
  refine ⟨rfl, rfl, ?_, ?_, ?_, ?_, ?_, ?_, ?_, ?_, ?_, ?_, rfl⟩
  · simp [mapGoogle, hg]
  · intro h; simp [mapGoogle, h]
  · intro h
    rw [show (mapGoogle g).author
        = String.intercalate (", ") (g.authors.getD (["Unknown"])) from rfl, h]
    decide
  · intro h; simp [mapGoogle, h]
  · intro h; simp [mapGoogle, h]
  · intro h; simp [mapGoogle, h]
  · intro h; simp [mapOpenLibrary, h]
  · intro h
    rw [show (mapOpenLibrary i).author
        = String.intercalate (", ") (i.authorNames.getD (["Unknown"])) from rfl, h]
    decide
  · intro h
    show String.intercalate (", ") (List.take 3 i.subjectNames) = ""
    rw [h]
    decide
  · intro h; simp [mapOpenLibrary, h]

/-- Witness for resolver_fallback_and_placeholders at concrete source
responses. -/
theorem resolver_fallback_witness :
    ([] : List String) = []
    ∧ fetch_book_metadata none (some ⟨some ("T"), some (["A"]), some (["P"]), [], none⟩)
      = (some ⟨some ("T"), some (["A"]), some (["P"]), [], none⟩).map mapOpenLibrary
    ∧ fetch_book_metadata none none = none
    ∧ (mapGoogle ⟨none, none, none, none, [], none⟩).genre = ""
    ∧ (mapGoogle ⟨none, none, none, none, [], none⟩).title = "Unknown" := by
  have h := resolver_fallback_and_placeholders
    (some ⟨some ("T"), some (["A"]), some (["P"]), [], none⟩)
    ⟨none, none, none, none, [], none⟩
    ⟨some ("T"), some (["A"]), some (["P"]), [], none⟩ rfl
  exact ⟨rfl, h.1, h.2.1, h.2.2.1, h.2.2.2.1 rfl⟩

/-- Counterexample to claim C6 as stated: with no Google match and an Open
Library match that lists no subjects, the resolved genre is the empty
string, not the placeholder Unknown; and the resolved summary is the
fabricated string Published by P, which is neither a source value (the
code never reads an Open Library description) nor one of the defined
placeholders. -/
theorem resolver_placeholder_counterexample :
    (fetch_book_metadata none
        (some ⟨some ("T"), some (["A"]), some (["P"]), [], none⟩)).map Metadata.genre
      = some ("")
    ∧ (fetch_book_metadata none
        (some ⟨some ("T"), some (["A"]), some (["P"]), [], none⟩)).map Metadata.description
      = some ("Published by P")
    ∧ (mapGoogle ⟨some ("T"), some (["A"]), some ("P"), some ("D"), [], none⟩).genre = ""
    ∧ ("" : String) ≠ "Unknown"
    ∧ ("Published by P" : String) ≠ "Unknown"
    ∧ ("Published by P" : String) ≠ "" := by
  exact ⟨by decide, by decide, by decide, by decide, by decide, by decide⟩

-- C7

/-- Claim C7, corrected.  The resolver performs no length check on the
normalized ISBN: the Google Books request is issued first for every input
(including inputs whose normalized form is shorter than 10 characters),
the Open Library request is issued exactly when Google yields no usable
match, and the result is NotFound exactly when both sources lack a match —
never because of the input length. -/
theorem resolver_always_queries_first_source (isbn : String)
    (g : Option GoogleInfo) (ol : Option OLInfo) :
    (fetchRequests isbn g).head? = some (googleUrl (cleanIsbn isbn))
    ∧ fetchRequests isbn g ≠ []
    ∧ (olUrl (cleanIsbn isbn) ∈ fetchRequests isbn g ↔
        g = none ∨ olUrl (cleanIsbn isbn) = googleUrl (cleanIsbn isbn))
    ∧ (fetch_book_metadata g ol = none ↔ g = none ∧ ol = none) := by
  refine ⟨?_, ?_, ?_, ?_⟩
  · cases g <;> rfl
  · cases g <;> simp [fetchRequests]
  · cases g with
    | some i => simp [fetchRequests]
    | none => simp [fetchRequests]
  · cases g with
    | some i => simp [fetch_book_metadata]
    | none =>
      cases ol with
      | some i => simp [fetch_book_metadata]
      | none => simp [fetch_book_metadata]

/-- Counterexample to claim C7 as stated: the input 123 normalizes to a
3-character string, yet the Google request is issued (the request list is
nonempty in every case), and when Google has a match the result is that
match rather than NotFound. -/
theorem resolver_short_isbn_counterexample :
    (cleanIsbn ("123")).length < 10
    ∧ fetchRequests ("123") none ≠ []
    ∧ fetchRequests ("123") (some ⟨some ("T"), none, none, none, [], none⟩) ≠ []
    ∧ fetch_book_metadata (some ⟨some ("T"), none, none, none, [], none⟩) none ≠ none := by
  exact ⟨by decide, by decide, by decide, by decide⟩

-- C8

/-- Claim C8, corrected.  The validation is per path: the quick-scan
receive rejects an empty ISBN with no mutation, and a bulk receiving row
whose ISBN is empty after stripping is skipped with no mutation — but the
sales import validates nothing: it appends a SaleEvent for every processed
row, whatever the ISBN or quantity (see the counterexample for the
mutation it performs on an empty-ISBN, zero-quantity row); and no bulk
path checks that the quantity is positive. -/
theorem validation_by_path (db : DB) (q : Int) (m : Option Metadata)
    (raw : String) (today : Date) (h : pyStrip raw = "") :
    quickReceive db ("") q m = db
    ∧ bulkReceiveRow db raw q m = db
    ∧ (processSalesRow db m raw q today).sales.length = db.sales.length + 1 := by
  refine ⟨?_, ?_, ?_⟩
  · simp [quickReceive]
  · simp [bulkReceiveRow, h]
  · rw [processSalesRow_sales]; simp

/-- Witness for validation_by_path at a concrete store and inputs. -/
theorem validation_by_path_witness :
    pyStrip ("  ") = ""
    ∧ quickReceive ⟨[], []⟩ ("") 3 none = ⟨[], []⟩
    ∧ bulkReceiveRow ⟨[], []⟩ ("  ") 3 none = ⟨[], []⟩
    ∧ (processSalesRow ⟨[], []⟩ none ("  ") 3 ⟨2024, 1, 1⟩).sales.length
        = ((⟨[], []⟩ : DB)).sales.length + 1 := by
  have h := validation_by_path ⟨[], []⟩ 3 none ("  ") ⟨2024, 1, 1⟩ (by decide)
  exact ⟨by decide, h.1, h.2.1, h.2.2⟩

/-- Counterexample to claim C8 as stated: a sales-import row whose ISBN is
empty and whose quantity is 0 (the coerced value of a non-numeric or zero
cell) is not rejected: it creates a book with the empty ISBN and appends a
SaleEvent for it. -/
theorem sales_import_no_validation_counterexample :
    (processSalesRow ⟨[], []⟩ none ("") 0 ⟨2024, 1, 1⟩).books.length = 1
    ∧ (processSalesRow ⟨[], []⟩ none ("") 0 ⟨2024, 1, 1⟩).sales
        = [⟨"", 0, ⟨2024, 1, 1⟩⟩] := by
  exact ⟨by decide, by decide⟩

-- C9

/-- Claim C9, confirmed.  A book contributes a Returns Due row exactly when
its stock is positive and its distributor reference resolves; the row for
such a book with a stored purchase date carries the due date computed by
calendar-month addition of the distributor return window and the day
difference to today; the styling classifies a row red (overdue) exactly
when the days left are negative, orange (due soon) exactly when they are
in [0, 30), and white (not urgent) otherwise.  The witness instantiates
the documented example: purchase 2024-01-01, window 6 months, evaluated on
2024-07-15, giving due date 2024-07-01 and -14 days, overdue. -/
theorem returns_scheduler_correct (books : List Book)
    (dists : List Distributor) (today : Date) (b : Book) (d : Distributor)
    (p : Date) (hb : b ∈ books) (hs : 0 < b.stock)
    (hd : b.distributorId.bind (fun i => dists.find? (fun x => x.id == i)) = some d)
    (hp : b.purchaseDate = some p) (hw : 0 ≤ d.returnWindowMonths) :
    mkReturnRow b d today ∈ returnsDue books dists today
    ∧ (mkReturnRow b d today).dueDate = some (addMonths p d.returnWindowMonths)
    ∧ (mkReturnRow b d today).daysLeft
        = some (rataDie (addMonths p d.returnWindowMonths) - rataDie today)
    ∧ (∀ x : Int, styleColor x = "red" ↔ x < 0)
    ∧ (∀ x : Int, styleColor x = "orange" ↔ 0 ≤ x ∧ x < 30)
    ∧ (∀ x : Int, styleColor x = "white" ↔ 30 ≤ x)
    ∧ (∀ r ∈ returnsDue books dists today, ∃ bb ∈ books, ∃ dd, 0 < bb.stock
        ∧ bb.distributorId.bind (fun i => dists.find? (fun x => x.id == i)) = some dd
        ∧ r = mkReturnRow bb dd today) := by
  refine ⟨?_, ?_, ?_, ?_, ?_, ?_, ?_⟩
  · apply List.mem_filterMap.mpr
    refine ⟨b, hb, ?_⟩
    rw [if_pos hs, hd]
  · simp [mkReturnRow, hp]
  · simp [mkReturnRow, hp]
  · intro x
    unfold styleColor
    by_cases h1 : x < 0
    · simp [h1]
    · rw [if_neg h1]
      by_cases h2 : x < 30
      · rw [if_pos h2]
        constructor
        · intro he
          exact absurd he (by decide)
        · intro hlt
          omega
      · rw [if_neg h2]
        constructor
        · intro he
          exact absurd he (by decide)
        · intro hlt
          omega
  · intro x
    unfold styleColor
    by_cases h1 : x < 0
    · rw [if_pos h1]
      constructor
      · intro he
        exact absurd he (by decide)
      · intro hlt
        omega
    · rw [if_neg h1]
      by_cases h2 : x < 30
      · rw [if_pos h2]
        constructor
        · intro _
          omega
        · intro _
          rfl
      · rw [if_neg h2]
        constructor
        · intro he
          exact absurd he (by decide)
        · intro hlt
          omega
  · intro x
    unfold styleColor
    by_cases h1 : x < 0
    · rw [if_pos h1]
      constructor
      · intro he
        exact absurd he (by decide)
      · intro hlt
        omega
    · rw [if_neg h1]
      by_cases h2 : x < 30
      · rw [if_pos h2]
        constructor
        · intro he
          exact absurd he (by decide)
        · intro hlt
          omega
      · rw [if_neg h2]
        constructor
        · intro _
          omega
        · intro _
          rfl
  · intro r hr
    rcases List.mem_filterMap.mp hr with ⟨bb, hbb, hf⟩
    by_cases hstock : 0 < bb.stock
    · rw [if_pos hstock] at hf
      cases hdd : bb.distributorId.bind (fun i => dists.find? (fun x => x.id == i)) with
      | none => rw [hdd] at hf; cases hf
      | some dd =>
        rw [hdd] at hf
        refine ⟨bb, hbb, dd, hstock, hdd, ?_⟩
        exact (Option.some_injective _ hf).symm
    · rw [if_neg hstock] at hf
      cases hf

/-- Witness for returns_scheduler_correct at the documented example:
purchase date 2024-01-01, return window 6 months, evaluated on 2024-07-15.
The due date is 2024-07-01, the days left are -14 and the row is styled
red (overdue). -/
theorem returns_scheduler_correct_witness :
    (0 : Int) < 2
    ∧ mkReturnRow ⟨"9780000000001", "T", "A", "", "", "", 0, 2, "", some ⟨2024, 1, 1⟩, some 1, ""⟩
        ⟨1, "D", "", "", 6⟩ ⟨2024, 7, 15⟩
      ∈ returnsDue [⟨"9780000000001", "T", "A", "", "", "", 0, 2, "", some ⟨2024, 1, 1⟩, some 1, ""⟩]
          [⟨1, "D", "", "", 6⟩] ⟨2024, 7, 15⟩
    ∧ (mkReturnRow ⟨"9780000000001", "T", "A", "", "", "", 0, 2, "", some ⟨2024, 1, 1⟩, some 1, ""⟩
        ⟨1, "D", "", "", 6⟩ ⟨2024, 7, 15⟩).dueDate = some ⟨2024, 7, 1⟩
    ∧ (mkReturnRow ⟨"9780000000001", "T", "A", "", "", "", 0, 2, "", some ⟨2024, 1, 1⟩, some 1, ""⟩
        ⟨1, "D", "", "", 6⟩ ⟨2024, 7, 15⟩).daysLeft = some (-14)
    ∧ styleColor (-14) = "red" := by
  have h := returns_scheduler_correct
    [⟨"9780000000001", "T", "A", "", "", "", 0, 2, "", some ⟨2024, 1, 1⟩, some 1, ""⟩]
    [⟨1, "D", "", "", 6⟩] ⟨2024, 7, 15⟩
    ⟨"9780000000001", "T", "A", "", "", "", 0, 2, "", some ⟨2024, 1, 1⟩, some 1, ""⟩
    ⟨1, "D", "", "", 6⟩ ⟨2024, 1, 1⟩
    (by decide) (by decide) (by decide) (by decide) (by decide)
  refine ⟨by decide, h.1, ?_, ?_, ?_⟩
  · rw [h.2.1]
    decide
  · rw [h.2.2.1]
    decide
  · exact ((h.2.2.2.1) (-14)).mpr (by decide)
